import Mathlib

/-!
# Verification of the pinecone-avatars Avatar Composition & Export Subsystem

Shallow embedding of the TypeScript sources:
* `src/src/types.ts` — variant model (attribute value sets, configuration types)
  and the export utilities `generateSvg`, `toBase64`, `generateBase64`,
  `generatePngBase64`, `downloadSvg`, `downloadPng`;
* `src/src/components/Avatar.tsx` — `defaultConfig`, `randomItem`,
  `generateRandomConfig`;
* `src/src/components/AvatarPicker.tsx` — the picker's state
  synchronization, `updateConfig` and `handleRandom`.

Attribute values are string tokens in TypeScript, so they are embedded as
`String`; legality of a value is membership in the corresponding list.
The fragment registries (`backgroundSvg`, …) are external artwork data,
imported by `types.ts` from files outside the subsystem; they are embedded
as abstract lookup functions `String → Option String`, where `none` models
a registry miss (JavaScript `table[key]` evaluating to `undefined`).
-/

namespace PineconeAvatars

set_option maxRecDepth 16384

/-- Array of all available background color options (`BACKGROUNDS` in types.ts). -/
def BACKGROUNDS : List String :=
  ["babyBlue", "coralRed", "darkGray", "lightGray",
   "mintGreen", "pastelGreen", "peach", "softPink"]

/-- Array of all available skin tone options (`SKINS` in types.ts). -/
def SKINS : List String :=
  ["deepBrown", "warmBrown", "mediumTan", "softPeach", "lightCream"]

/-- Array of all available t-shirt color options (`TSHIRTS` in types.ts). -/
def TSHIRTS : List String :=
  ["amber", "blue", "charcoal", "green", "orange",
   "pink", "raspberry", "white", "yellow"]

/-- Array of all available facial expression options (`EXPRESSIONS` in types.ts). -/
def EXPRESSIONS : List String :=
  ["angry", "blissful", "content", "dizzy", "excited",
   "furious", "happy", "playful", "sad", "sideGlance",
   "skeptical", "sleepy", "suspicious", "wink"]

/-- Array of all available hairstyle options (`HAIRS` in types.ts). -/
def HAIRS : List String :=
  ["afroPuffs", "asymmetricBuns", "bob", "bobSidePart", "bowlCut",
   "braids", "bunnyEars", "curlyHeadband", "curlyMessy", "curlyPigtails",
   "curlyPuff", "fullCurly", "longAfro", "longPeak", "longStraight",
   "messyArtistic", "pigtailBuns", "shortBuns", "shortBuzz", "shortCurly",
   "sideBangs", "spaceBuns", "spikyEarmuffs", "tinyBun", "topKnot",
   "wavyCenterPart", "wavyPuffs"]

/-- Structure `AvatarConfig` from types.ts: one value per attribute kind. -/
structure AvatarConfig where
  background : String
  skin : String
  tshirt : String
  expression : String
  hair : String
deriving DecidableEq, Repr

/-- Type `Partial<AvatarConfig>` from types.ts: each of the five keys may be absent (`none`). -/
structure PartialAvatarConfig where
  background : Option String := none
  skin : Option String := none
  tshirt : Option String := none
  expression : Option String := none
  hair : Option String := none
deriving DecidableEq, Repr

/-- Constant `defaultConfig` from Avatar.tsx (the identical literal also appears in
types.ts above `generateSvg`). -/
def defaultConfig : AvatarConfig :=
  { background := "babyBlue"
    skin := "softPeach"
    tshirt := "orange"
    expression := "happy"
    hair := "shortBuzz" }

/-- The spread merge `{ ...defaultConfig, ...config }` in `generateSvg`:
each key takes the partial's value when supplied, the default otherwise. -/
def mergeConfig (config : PartialAvatarConfig) : AvatarConfig :=
  { background := config.background.getD defaultConfig.background
    skin := config.skin.getD defaultConfig.skin
    tshirt := config.tshirt.getD defaultConfig.tshirt
    expression := config.expression.getD defaultConfig.expression
    hair := config.hair.getD defaultConfig.hair }

/-- The five fragment lookup tables imported by types.ts
(`backgroundSvg`, `tshirtSvg`, `skinSvg`, `hairSvg`, `expressionSvg`).
The artwork data lives outside the subsystem, so each table is abstract:
`none` models `table[key]` being `undefined` (a registry miss). -/
structure FragmentRegistry where
  backgroundSvg : String → Option String
  skinSvg : String → Option String
  tshirtSvg : String → Option String
  expressionSvg : String → Option String
  hairSvg : String → Option String

/-- The idiom `table[key] || ''` in `generateSvg`: a missing fragment
(and likewise an empty-string fragment, which is falsy) yields `''`. -/
def resolveFrag (table : String → Option String) (key : String) : String :=
  (table key).getD ""

/-- Function `generateSvg` from types.ts: merge the partial configuration over the
defaults, resolve the five fragments, and interpolate the template literal. -/
def generateSvg (reg : FragmentRegistry)
    (config : PartialAvatarConfig := {}) (size : Nat := 474) : String :=
  let merged := mergeConfig config
  let background := resolveFrag reg.backgroundSvg merged.background
  let tshirt := resolveFrag reg.tshirtSvg merged.tshirt
  let skin := resolveFrag reg.skinSvg merged.skin
  let hair := resolveFrag reg.hairSvg merged.hair
  let expression := resolveFrag reg.expressionSvg merged.expression
  "<svg width=\"" ++ toString size ++ "\" height=\"" ++ toString size ++
    "\" viewBox=\"0 0 474 474\" fill=\"none\" xmlns=\"http://www.w3.org/2000/svg\">" ++
    "<defs><clipPath id=\"avatarClip\"><circle cx=\"237\" cy=\"237\" r=\"237\"/></clipPath></defs>" ++
    background ++
    "<g clip-path=\"url(#avatarClip)\">" ++
    tshirt ++ skin ++ hair ++ expression ++
    "</g></svg>"

/-- The markup envelope up to and including the clip-path definition,
as the spec describes it: `<svg>` open tag carrying `width`/`height` equal
to the requested size, the fixed viewport, and the `avatarClip` circle. -/
def svgEnvelopeOpen (size : Nat) : String :=
  "<svg width=\"" ++ toString size ++ "\" height=\"" ++ toString size ++
    "\" viewBox=\"0 0 474 474\" fill=\"none\" xmlns=\"http://www.w3.org/2000/svg\">" ++
    "<defs><clipPath id=\"avatarClip\"><circle cx=\"237\" cy=\"237\" r=\"237\"/></clipPath></defs>"

/-- Opening of the circular-clip group, per the spec's layering description. -/
def clipGroupOpen : String := "<g clip-path=\"url(#avatarClip)\">"

/-- Closing of the clip group and of the document. -/
def clipGroupClose : String := "</g></svg>"

/-! ## Base64 over UTF-8 bytes

Function `toBase64` in types.ts computes `btoa(unescape(encodeURIComponent(str)))`
in the browser and `Buffer.from(str, 'utf-8').toString('base64')` in Node.
Both branches produce the standard Base64 encoding of the UTF-8 bytes of the
input string: `encodeURIComponent` percent-encodes every non-ASCII-safe
character as its UTF-8 byte sequence, `unescape` turns each `%XX` escape into
the character with code `XX`, and `btoa` encodes the resulting byte-per-character
string. The embedding therefore models `toBase64` as Base64 over UTF-8 bytes,
with both stages spelled out below so the round-trip can be proved. -/

/-- UTF-8 encoding of a single code point (1 to 4 bytes). -/
def utf8EncodeChar (c : Char) : List Nat :=
  let n := c.toNat
  if n < 128 then [n]
  else if n < 2048 then [192 + n / 64, 128 + n % 64]
  else if n < 65536 then [224 + n / 4096, 128 + n / 64 % 64, 128 + n % 64]
  else [240 + n / 262144, 128 + n / 4096 % 64, 128 + n / 64 % 64, 128 + n % 64]

/-- UTF-8 encoding of a list of characters. -/
def utf8EncodeList (cs : List Char) : List Nat :=
  (cs.map utf8EncodeChar).flatten

/-- UTF-8 bytes of a string. -/
def utf8Encode (s : String) : List Nat :=
  utf8EncodeList s.data

/-- One step of UTF-8 decoding: read a single code point from the front
of a byte list (permissive about continuation-byte ranges; used only as a
left inverse of `utf8EncodeChar`). -/
def utf8DecodeStep : List Nat → Option (Char × List Nat)
  | [] => none
  | b :: bs =>
    if b < 128 then some (Char.ofNat b, bs)
    else if b < 224 then
      match bs with
      | b2 :: bs2 => some (Char.ofNat ((b - 192) * 64 + (b2 - 128)), bs2)
      | _ => none
    else if b < 240 then
      match bs with
      | b2 :: b3 :: bs2 =>
        some (Char.ofNat ((b - 224) * 4096 + (b2 - 128) * 64 + (b3 - 128)), bs2)
      | _ => none
    else
      match bs with
      | b2 :: b3 :: b4 :: bs2 =>
        some (Char.ofNat ((b - 240) * 262144 + (b2 - 128) * 4096 +
          (b3 - 128) * 64 + (b4 - 128)), bs2)
      | _ => none

/-- UTF-8 decoding (left inverse of `utf8EncodeList`). -/
def utf8DecodeList (bs : List Nat) : Option (List Char) :=
  if _h0 : bs = [] then some []
  else
    match h : utf8DecodeStep bs with
    | none => none
    | some (c, rest) => (utf8DecodeList rest).map (fun cs => c :: cs)
termination_by bs.length
decreasing_by
  cases bs with
  | nil => simp [utf8DecodeStep] at h
  | cons b bs =>
    simp only [utf8DecodeStep] at h
    split at h <;> (try split at h) <;> (try split at h) <;> (try split at h) <;>
      simp_all <;> omega

/-- UTF-8 decoding of a byte list back to a string. -/
def utf8Decode (bs : List Nat) : Option String :=
  (utf8DecodeList bs).map String.mk

/-- The standard Base64 alphabet. -/
def b64Chars : List Char :=
  "ABCDEFGHIJKLMNOPQRSTUVWXYZabcdefghijklmnopqrstuvwxyz0123456789+/".data

/-- Base64 digit for a 6-bit value. -/
def b64Char (n : Nat) : Char := b64Chars.getD n 'A'

/-- Value of a Base64 digit, `none` for a character outside the alphabet. -/
def b64Val (ch : Char) : Option Nat :=
  let i := b64Chars.indexOf ch
  if i < 64 then some i else none

/-- Base64 encoding of a byte list, with `=` padding. -/
def base64Encode : List Nat → List Char
  | [] => []
  | [b1] => [b64Char (b1 / 4), b64Char (b1 % 4 * 16), '=', '=']
  | [b1, b2] =>
      [b64Char (b1 / 4), b64Char (b1 % 4 * 16 + b2 / 16), b64Char (b2 % 16 * 4), '=']
  | b1 :: b2 :: b3 :: rest =>
      b64Char (b1 / 4) :: b64Char (b1 % 4 * 16 + b2 / 16) ::
      b64Char (b2 % 16 * 4 + b3 / 64) :: b64Char (b3 % 64) :: base64Encode rest

/-- Base64 decoding (left inverse of `base64Encode`). -/
def base64Decode : List Char → Option (List Nat)
  | [] => some []
  | c1 :: c2 :: c3 :: c4 :: rest =>
    (match b64Val c1, b64Val c2 with
     | some x, some y =>
       if c3 = '=' then
         if c4 = '=' ∧ rest = [] then some [x * 4 + y / 16] else none
       else
         (match b64Val c3 with
          | some z =>
            if c4 = '=' then
              if rest = [] then some [x * 4 + y / 16, y % 16 * 16 + z / 4] else none
            else
              (match b64Val c4 with
               | some w =>
                 (base64Decode rest).map
                   (fun bs => (x * 4 + y / 16) :: (y % 16 * 16 + z / 4) :: (z % 4 * 64 + w) :: bs)
               | none => none)
          | none => none)
     | _, _ => none)
  | _ => none

/-- Function `toBase64` from types.ts (both environment branches agree;
see the section comment above). -/
def toBase64 (s : String) : String :=
  String.mk (base64Encode (utf8Encode s))

/-- Function `generateBase64` from types.ts. -/
def generateBase64 (reg : FragmentRegistry)
    (config : PartialAvatarConfig := {}) (size : Nat := 474) : String :=
  "data:image/svg+xml;base64," ++ toBase64 (generateSvg reg config size)

/-! ## Browser-only export operations

These functions branch on `typeof window === 'undefined'` and drive DOM and
canvas APIs. The environment is embedded as a `BrowserEnv` record: whether
`window` is defined, how the canvas and image-decode steps respond, and
whether each DOM actuation step throws (a JavaScript call such as
`appendChild` or `click` can in principle throw; an uncaught throw aborts
the function at that point). Each operation returns its JavaScript
result/exception as an `Except` together with the ordered list of DOM side
effects it actually performed. -/

/-- Interactive-display environment for the browser-only export functions. -/
structure BrowserEnv where
  windowDefined : Bool
  canvasContextAvailable : Bool
  imageLoadSucceeds : Bool
  canvasPngDataUrl : String
  appendChildThrows : Bool
  clickThrows : Bool
  removeChildThrows : Bool
deriving DecidableEq, Repr

/-- Observable DOM side effects of the export functions. -/
inductive DomEffect
  | createCanvas
  | setImageSrc (src : String)
  | drawImage
  | canvasToDataURL
  | createObjectURL
  | createAnchor
  | appendChild
  | click
  | removeChild
  | revokeObjectURL
deriving DecidableEq, Repr

/-- Function `generatePngBase64` from types.ts: guard on `window`, build the
SVG, draw it on an offscreen canvas via an `Image`, and extract a PNG data
URL. The inline `btoa(unescape(encodeURIComponent(svg)))` that feeds
`img.src` equals `toBase64 svg` (see the Base64 section comment). -/
def generatePngBase64 (env : BrowserEnv) (reg : FragmentRegistry)
    (config : PartialAvatarConfig := {}) (size : Nat := 474) :
    Except String String × List DomEffect :=
  if env.windowDefined = false then
    (Except.error "generatePngBase64 is only available in browser environment", [])
  else
    let svg := generateSvg reg config size
    if env.canvasContextAvailable = false then
      (Except.error "Could not get canvas context", [DomEffect.createCanvas])
    else
      let src := "data:image/svg+xml;base64," ++ toBase64 svg
      if env.imageLoadSucceeds then
        (Except.ok env.canvasPngDataUrl,
          [DomEffect.createCanvas, DomEffect.setImageSrc src,
           DomEffect.drawImage, DomEffect.canvasToDataURL])
      else
        (Except.error "Failed to load SVG image",
          [DomEffect.createCanvas, DomEffect.setImageSrc src])

/-- Function `downloadSvg` from types.ts: guard on `window`, create a blob
object URL, then actuate a transient anchor (append, click, remove) and
finally revoke the URL. The source is straight-line code with no
`try`/`finally`, so a throwing actuation step aborts the function before
`URL.revokeObjectURL` runs. -/
def downloadSvg (env : BrowserEnv) (reg : FragmentRegistry)
    (config : PartialAvatarConfig := {}) (filename : String := "avatar.svg") :
    Except String Unit × List DomEffect :=
  if env.windowDefined = false then
    (Except.error "downloadSvg is only available in browser environment", [])
  else if env.appendChildThrows then
    (Except.error "appendChild threw",
      [DomEffect.createObjectURL, DomEffect.createAnchor])
  else if env.clickThrows then
    (Except.error "click threw",
      [DomEffect.createObjectURL, DomEffect.createAnchor, DomEffect.appendChild])
  else if env.removeChildThrows then
    (Except.error "removeChild threw",
      [DomEffect.createObjectURL, DomEffect.createAnchor, DomEffect.appendChild,
       DomEffect.click])
  else
    (Except.ok (),
      [DomEffect.createObjectURL, DomEffect.createAnchor, DomEffect.appendChild,
       DomEffect.click, DomEffect.removeChild, DomEffect.revokeObjectURL])

/-- Function `downloadPng` from types.ts: guard on `window`, await
`generatePngBase64`, then actuate a transient anchor with the PNG data URL
(no object URL is allocated on this path). -/
def downloadPng (env : BrowserEnv) (reg : FragmentRegistry)
    (config : PartialAvatarConfig := {}) (size : Nat := 474)
    (filename : String := "avatar.png") :
    Except String Unit × List DomEffect :=
  if env.windowDefined = false then
    (Except.error "downloadPng is only available in browser environment", [])
  else
    match generatePngBase64 env reg config size with
    | (Except.error e, effs) => (Except.error e, effs)
    | (Except.ok _, effs) =>
      if env.appendChildThrows then
        (Except.error "appendChild threw", effs ++ [DomEffect.createAnchor])
      else if env.clickThrows then
        (Except.error "click threw",
          effs ++ [DomEffect.createAnchor, DomEffect.appendChild])
      else if env.removeChildThrows then
        (Except.error "removeChild threw",
          effs ++ [DomEffect.createAnchor, DomEffect.appendChild, DomEffect.click])
      else
        (Except.ok (),
          effs ++ [DomEffect.createAnchor, DomEffect.appendChild, DomEffect.click,
            DomEffect.removeChild])

/-! ## Selection controller (AvatarPicker) and random configuration -/

/-- Function `randomItem` from Avatar.tsx:
`arr[Math.floor(Math.random() * arr.length)]`. The draw `Math.random()` is
modelled as a rational `r` with `0 ≤ r < 1`; an out-of-range index yields
`undefined`, i.e. `none`. -/
def randomItem (arr : List String) (r : ℚ) : Option String :=
  arr[(⌊r * arr.length⌋).toNat]?

/-- Function `generateRandomConfig` from Avatar.tsx: one independent draw per
attribute kind, each over that kind's full option list. -/
def generateRandomConfig (r₁ r₂ r₃ r₄ r₅ : ℚ) : Option AvatarConfig :=
  match randomItem BACKGROUNDS r₁, randomItem SKINS r₂, randomItem TSHIRTS r₃,
        randomItem EXPRESSIONS r₄, randomItem HAIRS r₅ with
  | some b, some s, some t, some e, some h =>
      some { background := b, skin := s, tshirt := t, expression := e, hair := h }
  | _, _, _, _, _ => none

/-- A single-attribute update request, `updateConfig(key, val)` in
AvatarPicker.tsx (values are string tokens in TypeScript). -/
inductive AttrUpdate
  | background (v : String)
  | skin (v : String)
  | tshirt (v : String)
  | expression (v : String)
  | hair (v : String)
deriving DecidableEq, Repr

/-- The spread `{ ...config, [key]: val }` inside `updateConfig`. -/
def applyUpdate (c : AvatarConfig) : AttrUpdate → AvatarConfig
  | AttrUpdate.background v => { c with background := v }
  | AttrUpdate.skin v => { c with skin := v }
  | AttrUpdate.tshirt v => { c with tshirt := v }
  | AttrUpdate.expression v => { c with expression := v }
  | AttrUpdate.hair v => { c with hair := v }

/-- Function `updateConfig` from AvatarPicker.tsx: build the new
configuration, store it with `setConfig`, and invoke `onChange?.(newConfig)`.
Returns the new SelectionState together with the list of configurations the
change callback is invoked with (`hasOnChange` is whether a callback is
registered; `onChange?.()` is a no-op, not an error, when it is not). -/
def updateConfig (hasOnChange : Bool) (config : AvatarConfig) (u : AttrUpdate) :
    AvatarConfig × List AvatarConfig :=
  let newConfig := applyUpdate config u
  (newConfig, if hasOnChange then [newConfig] else [])

/-- Function `handleRandom` from AvatarPicker.tsx: draw a whole new
configuration with `generateRandomConfig`, store it wholesale (the previous
SelectionState is not consulted), and invoke `onChange?.(newConfig)`. -/
def handleRandom (hasOnChange : Bool) (r₁ r₂ r₃ r₄ r₅ : ℚ) :
    Option (AvatarConfig × List AvatarConfig) :=
  (generateRandomConfig r₁ r₂ r₃ r₄ r₅).map
    (fun newConfig => (newConfig, if hasOnChange then [newConfig] else []))

/-- Initial SelectionState of AvatarPicker:
`useState<AvatarConfig>(value || defaultConfig)`. -/
def initialSelectionState (value : Option AvatarConfig) : AvatarConfig :=
  value.getD defaultConfig

/-- The external-to-internal sync effect in AvatarPicker.tsx:
`useEffect(() => { if (value) setConfig(value) }, [value])` — the internal
state is overwritten only when an external configuration is actually
supplied. -/
def syncSelectionState (value : Option AvatarConfig) (internal : AvatarConfig) :
    AvatarConfig :=
  match value with
  | some v => v
  | none => internal


/-- Substring containment: the hay splits as `pre ++ needle ++ post`. -/
def containsSubstr (hay needle : String) : Prop :=
  ∃ pre post, hay = pre ++ needle ++ post

/-- The registry with every miss replaced by the empty fragment; used to
state that `generateSvg` treats a registry miss exactly as an empty
fragment. -/
def totalizeRegistry (reg : FragmentRegistry) : FragmentRegistry :=
  { backgroundSvg := fun v => some (resolveFrag reg.backgroundSvg v)
    skinSvg := fun v => some (resolveFrag reg.skinSvg v)
    tshirtSvg := fun v => some (resolveFrag reg.tshirtSvg v)
    expressionSvg := fun v => some (resolveFrag reg.expressionSvg v)
    hairSvg := fun v => some (resolveFrag reg.hairSvg v) }

/-- A concrete registry with no fragments at all (every lookup misses). -/
def emptyRegistry : FragmentRegistry :=
  { backgroundSvg := fun _ => none
    skinSvg := fun _ => none
    tshirtSvg := fun _ => none
    expressionSvg := fun _ => none
    hairSvg := fun _ => none }

/-- A concrete non-browser environment (`window` undefined). -/
def noWindowEnv : BrowserEnv :=
  { windowDefined := false
    canvasContextAvailable := true
    imageLoadSucceeds := true
    canvasPngDataUrl := ""
    appendChildThrows := false
    clickThrows := false
    removeChildThrows := false }

/-- A concrete healthy browser environment (no step throws). -/
def okBrowserEnv : BrowserEnv :=
  { windowDefined := true
    canvasContextAvailable := true
    imageLoadSucceeds := true
    canvasPngDataUrl := "data:image/png;base64,AAAA"
    appendChildThrows := false
    clickThrows := false
    removeChildThrows := false }

/-- A concrete browser environment in which `a.click()` throws. -/
def clickThrowsEnv : BrowserEnv :=
  { windowDefined := true
    canvasContextAvailable := true
    imageLoadSucceeds := true
    canvasPngDataUrl := "data:image/png;base64,AAAA"
    appendChildThrows := false
    clickThrows := true
    removeChildThrows := false }

/-! ## Theorems -/


/-! ### Round-trip lemmas for the encoding pipeline -/

theorem b64Val_b64Char : ∀ n : Nat, n < 64 → b64Val (b64Char n) = some n := by
  decide

theorem b64Char_ne_pad : ∀ n : Nat, n < 64 → b64Char n ≠ '=' := by
  decide

theorem base64Decode_base64Encode :
    ∀ bs : List Nat, (∀ b ∈ bs, b < 256) → base64Decode (base64Encode bs) = some bs
  | [], _ => rfl
  | [b1], h => by
      have hb1 : b1 < 256 := h b1 (by simp)
      have e1 : b64Val (b64Char (b1 / 4)) = some (b1 / 4) := b64Val_b64Char _ (by omega)
      have e2 : b64Val (b64Char (b1 % 4 * 16)) = some (b1 % 4 * 16) :=
        b64Val_b64Char _ (by omega)
      simp [base64Encode, base64Decode, e1, e2]
      omega
  | [b1, b2], h => by
      have hb1 : b1 < 256 := h b1 (by simp)
      have hb2 : b2 < 256 := h b2 (by simp)
      have e1 : b64Val (b64Char (b1 / 4)) = some (b1 / 4) := b64Val_b64Char _ (by omega)
      have e2 : b64Val (b64Char (b1 % 4 * 16 + b2 / 16)) = some (b1 % 4 * 16 + b2 / 16) :=
        b64Val_b64Char _ (by omega)
      have e3 : b64Val (b64Char (b2 % 16 * 4)) = some (b2 % 16 * 4) :=
        b64Val_b64Char _ (by omega)
      have ne3 : b64Char (b2 % 16 * 4) ≠ '=' := b64Char_ne_pad _ (by omega)
      simp [base64Encode, base64Decode, e1, e2, e3, ne3]
      omega
  | b1 :: b2 :: b3 :: rest, h => by
      have hb1 : b1 < 256 := h b1 (by simp)
      have hb2 : b2 < 256 := h b2 (by simp)
      have hb3 : b3 < 256 := h b3 (by simp)
      have e1 : b64Val (b64Char (b1 / 4)) = some (b1 / 4) := b64Val_b64Char _ (by omega)
      have e2 : b64Val (b64Char (b1 % 4 * 16 + b2 / 16)) = some (b1 % 4 * 16 + b2 / 16) :=
        b64Val_b64Char _ (by omega)
      have e3 : b64Val (b64Char (b2 % 16 * 4 + b3 / 64)) = some (b2 % 16 * 4 + b3 / 64) :=
        b64Val_b64Char _ (by omega)
      have e4 : b64Val (b64Char (b3 % 64)) = some (b3 % 64) := b64Val_b64Char _ (by omega)
      have ne3 : b64Char (b2 % 16 * 4 + b3 / 64) ≠ '=' := b64Char_ne_pad _ (by omega)
      have ne4 : b64Char (b3 % 64) ≠ '=' := b64Char_ne_pad _ (by omega)
      have ih := base64Decode_base64Encode rest (fun b hb => h b (by simp [hb]))
      match rest with
      | [] =>
        simp [base64Encode, base64Decode, e1, e2, e3, e4, ne3, ne4]
        omega
      | r :: rs =>
        rw [show base64Encode (b1 :: b2 :: b3 :: r :: rs) =
          b64Char (b1 / 4) :: b64Char (b1 % 4 * 16 + b2 / 16) ::
          b64Char (b2 % 16 * 4 + b3 / 64) :: b64Char (b3 % 64) ::
          base64Encode (r :: rs) from rfl]
        simp only [base64Decode, e1, e2, e3, e4, ne3, ne4, if_neg, ite_false]
        rw [ih]
        simp
        omega

theorem utf8EncodeChar_lt_256 (c : Char) : ∀ b ∈ utf8EncodeChar c, b < 256 := by
  have hv := c.valid
  unfold UInt32.isValidChar Nat.isValidChar at hv
  have hn : c.toNat = c.val.toNat := rfl
  intro b hb
  by_cases h1 : c.toNat < 128
  · simp [utf8EncodeChar, h1] at hb
    omega
  · by_cases h2 : c.toNat < 2048
    · simp [utf8EncodeChar, h1, h2] at hb
      rcases hb with hb | hb <;> omega
    · by_cases h3 : c.toNat < 65536
      · simp [utf8EncodeChar, h1, h2, h3] at hb
        rcases hb with hb | hb | hb <;> omega
      · simp [utf8EncodeChar, h1, h2, h3] at hb
        rcases hv with hv | hv <;>
          rcases hb with hb | hb | hb | hb <;> omega

theorem utf8EncodeChar_ne_nil (c : Char) : utf8EncodeChar c ≠ [] := by
  simp only [utf8EncodeChar]
  split <;> (try split) <;> (try split) <;> simp

theorem utf8DecodeStep_encodeChar (c : Char) (rest : List Nat) :
    utf8DecodeStep (utf8EncodeChar c ++ rest) = some (c, rest) := by
  by_cases h1 : c.toNat < 128
  · simp only [utf8EncodeChar, if_pos h1, List.cons_append, List.nil_append]
    simp only [utf8DecodeStep, if_pos h1, Char.ofNat_toNat]
  · by_cases h2 : c.toNat < 2048
    · simp only [utf8EncodeChar, if_neg h1, if_pos h2, List.cons_append, List.nil_append]
      have hA : ¬(192 + c.toNat / 64 < 128) := by omega
      have hB : 192 + c.toNat / 64 < 224 := by omega
      simp only [utf8DecodeStep, hA, hB, if_true, if_false, ite_true, ite_false]
      have harg : (192 + c.toNat / 64 - 192) * 64 + (128 + c.toNat % 64 - 128) = c.toNat := by
        omega
      simp only [harg, Char.ofNat_toNat]
    · by_cases h3 : c.toNat < 65536
      · simp only [utf8EncodeChar, if_neg h1, if_neg h2, if_pos h3, List.cons_append,
          List.nil_append]
        have hA : ¬(224 + c.toNat / 4096 < 128) := by omega
        have hB : ¬(224 + c.toNat / 4096 < 224) := by omega
        have hC : 224 + c.toNat / 4096 < 240 := by omega
        simp only [utf8DecodeStep, hA, hB, hC, if_true, if_false, ite_true, ite_false]
        have harg : (224 + c.toNat / 4096 - 224) * 4096 +
            (128 + c.toNat / 64 % 64 - 128) * 64 + (128 + c.toNat % 64 - 128) = c.toNat := by
          omega
        simp only [harg, Char.ofNat_toNat]
      · simp only [utf8EncodeChar, if_neg h1, if_neg h2, if_neg h3, List.cons_append,
          List.nil_append]
        have hA : ¬(240 + c.toNat / 262144 < 128) := by omega
        have hB : ¬(240 + c.toNat / 262144 < 224) := by omega
        have hC : ¬(240 + c.toNat / 262144 < 240) := by omega
        simp only [utf8DecodeStep, hA, hB, hC, if_true, if_false, ite_true, ite_false]
        have harg : (240 + c.toNat / 262144 - 240) * 262144 +
            (128 + c.toNat / 4096 % 64 - 128) * 4096 +
            (128 + c.toNat / 64 % 64 - 128) * 64 + (128 + c.toNat % 64 - 128) = c.toNat := by
          omega
        simp only [harg, Char.ofNat_toNat]

theorem utf8DecodeList_encodeChar_append (c : Char) (rest : List Nat) :
    utf8DecodeList (utf8EncodeChar c ++ rest) =
      (utf8DecodeList rest).map (fun cs => c :: cs) := by
  have hne : utf8EncodeChar c ++ rest ≠ [] := by
    simp [utf8EncodeChar_ne_nil c]
  rw [utf8DecodeList.eq_def, dif_neg hne]
  split
  · rename_i heq
    rw [utf8DecodeStep_encodeChar] at heq
    cases heq
  · rename_i c1 rest1 heq
    rw [utf8DecodeStep_encodeChar] at heq
    simp only [Option.some.injEq, Prod.mk.injEq] at heq
    obtain ⟨rfl, rfl⟩ := heq
    rfl

theorem utf8DecodeList_utf8EncodeList (cs : List Char) :
    utf8DecodeList (utf8EncodeList cs) = some cs := by
  induction cs with
  | nil =>
      rw [show utf8EncodeList [] = [] from rfl, utf8DecodeList.eq_def]
      simp
  | cons c cs ih =>
      have he : utf8EncodeList (c :: cs) = utf8EncodeChar c ++ utf8EncodeList cs := by
        simp [utf8EncodeList]
      rw [he, utf8DecodeList_encodeChar_append, ih]
      rfl

theorem utf8Decode_utf8Encode (s : String) : utf8Decode (utf8Encode s) = some s := by
  show (utf8DecodeList (utf8Encode s)).map String.mk = some s
  rw [utf8Encode, utf8DecodeList_utf8EncodeList]
  rfl

theorem utf8Encode_lt_256 (s : String) : ∀ b ∈ utf8Encode s, b < 256 := by
  simp only [utf8Encode, utf8EncodeList]
  intro b hb
  simp only [List.mem_flatten, List.mem_map] at hb
  obtain ⟨l, ⟨c, _, rfl⟩, hbl⟩ := hb
  exact utf8EncodeChar_lt_256 c b hbl

theorem base64Decode_toBase64 (s : String) :
    base64Decode (toBase64 s).data = some (utf8Encode s) := by
  show base64Decode (base64Encode (utf8Encode s)) = some (utf8Encode s)
  exact base64Decode_base64Encode _ (utf8Encode_lt_256 s)

/-! ### Claim C1 — fixed z-order of the five fragments -/

/-- C1: for every partial configuration and every size, the markup produced
by `generateSvg` consists of the envelope (with the clip-path definition),
then the background fragment outside the circular clip group, then the clip
group containing the shirt, skin, hair and expression fragments, in exactly
that order. -/
theorem generateSvg_layer_order (reg : FragmentRegistry)
    (config : PartialAvatarConfig) (size : Nat) :
    generateSvg reg config size =
      svgEnvelopeOpen size
        ++ resolveFrag reg.backgroundSvg (mergeConfig config).background
        ++ clipGroupOpen
        ++ resolveFrag reg.tshirtSvg (mergeConfig config).tshirt
        ++ resolveFrag reg.skinSvg (mergeConfig config).skin
        ++ resolveFrag reg.hairSvg (mergeConfig config).hair
        ++ resolveFrag reg.expressionSvg (mergeConfig config).expression
        ++ clipGroupClose := by
  simp [generateSvg, svgEnvelopeOpen, clipGroupOpen, clipGroupClose, String.append_assoc]

/-! ### Claim C2 — data URL prefix and Base64/UTF-8 round-trip -/

/-- C2: `generateBase64` returns exactly the prefix
`data:image/svg+xml;base64,` followed by a payload whose Base64 decoding is
the UTF-8 byte sequence of the `generateSvg` markup for the same
configuration and size; moreover the round-trip through `toBase64` is
correct for arbitrary Unicode strings, not only ASCII ones. -/
theorem generateBase64_roundtrip (reg : FragmentRegistry)
    (config : PartialAvatarConfig) (size : Nat) :
    generateBase64 reg config size =
      "data:image/svg+xml;base64," ++ toBase64 (generateSvg reg config size) ∧
    base64Decode (toBase64 (generateSvg reg config size)).data =
      some (utf8Encode (generateSvg reg config size)) ∧
    (∀ s : String, base64Decode (toBase64 s).data = some (utf8Encode s) ∧
      utf8Decode (utf8Encode s) = some s) :=
  ⟨rfl, base64Decode_toBase64 _,
    fun s => ⟨base64Decode_toBase64 s, utf8Decode_utf8Encode s⟩⟩

/-! ### Claim C3 — registry misses become empty fragments, composition total -/

/-- C3: composition never fails — a registry miss (`table[key]` being
`undefined`) is replaced by the empty fragment by `table[key] || ''`, and
`generateSvg` behaves identically on a registry in which every miss has been
replaced by an explicit empty fragment; the miss is never surfaced. -/
theorem generateSvg_total_registry_miss :
    (∀ (table : String → Option String) (key : String),
        table key = none → resolveFrag table key = "") ∧
    (∀ (reg : FragmentRegistry) (config : PartialAvatarConfig) (size : Nat),
        generateSvg (totalizeRegistry reg) config size = generateSvg reg config size) := by
  constructor
  · intro table key h
    simp [resolveFrag, h]
  · intro reg config size
    simp [generateSvg, totalizeRegistry, resolveFrag]

/-- Witness for C3: the all-miss registry resolves the legal value
`wavyPuffs` to the empty fragment. -/
theorem generateSvg_total_registry_miss_witness :
    (fun _ : String => (none : Option String)) "wavyPuffs" = none ∧
    resolveFrag (fun _ : String => (none : Option String)) "wavyPuffs" = "" :=
  ⟨rfl, generateSvg_total_registry_miss.1 (fun _ => none) "wavyPuffs" rfl⟩

/-! ### Claim C4 — frame attributes present for every size, zero included -/

/-- C4: for every configuration and every size (`Nat`, so every size ≥ 0,
zero included — not an error), the markup contains the literal width and
height attributes with value `size`, the fixed viewport declaration
`viewBox="0 0 474 474"`, and the clip-path definition with id `avatarClip`
consisting of a circle centered at `(237, 237)` with radius `237`. -/
theorem generateSvg_frame_substrings (reg : FragmentRegistry)
    (config : PartialAvatarConfig) (size : Nat) :
    containsSubstr (generateSvg reg config size)
      ("width=\"" ++ toString size ++ "\"") ∧
    containsSubstr (generateSvg reg config size)
      ("height=\"" ++ toString size ++ "\"") ∧
    containsSubstr (generateSvg reg config size) "viewBox=\"0 0 474 474\"" ∧
    containsSubstr (generateSvg reg config size)
      "<clipPath id=\"avatarClip\"><circle cx=\"237\" cy=\"237\" r=\"237\"/></clipPath>" := by
  refine ⟨⟨"<svg ",
      " height=\"" ++ toString size ++
        "\" viewBox=\"0 0 474 474\" fill=\"none\" xmlns=\"http://www.w3.org/2000/svg\">" ++
        "<defs><clipPath id=\"avatarClip\"><circle cx=\"237\" cy=\"237\" r=\"237\"/></clipPath></defs>" ++
        resolveFrag reg.backgroundSvg (mergeConfig config).background ++
        "<g clip-path=\"url(#avatarClip)\">" ++
        resolveFrag reg.tshirtSvg (mergeConfig config).tshirt ++
        resolveFrag reg.skinSvg (mergeConfig config).skin ++
        resolveFrag reg.hairSvg (mergeConfig config).hair ++
        resolveFrag reg.expressionSvg (mergeConfig config).expression ++
        "</g></svg>", ?_⟩,
    ⟨"<svg width=\"" ++ toString size ++ "\" ",
      " viewBox=\"0 0 474 474\" fill=\"none\" xmlns=\"http://www.w3.org/2000/svg\">" ++
        "<defs><clipPath id=\"avatarClip\"><circle cx=\"237\" cy=\"237\" r=\"237\"/></clipPath></defs>" ++
        resolveFrag reg.backgroundSvg (mergeConfig config).background ++
        "<g clip-path=\"url(#avatarClip)\">" ++
        resolveFrag reg.tshirtSvg (mergeConfig config).tshirt ++
        resolveFrag reg.skinSvg (mergeConfig config).skin ++
        resolveFrag reg.hairSvg (mergeConfig config).hair ++
        resolveFrag reg.expressionSvg (mergeConfig config).expression ++
        "</g></svg>", ?_⟩,
    ⟨"<svg width=\"" ++ toString size ++ "\" height=\"" ++ toString size ++ "\" ",
      " fill=\"none\" xmlns=\"http://www.w3.org/2000/svg\">" ++
        "<defs><clipPath id=\"avatarClip\"><circle cx=\"237\" cy=\"237\" r=\"237\"/></clipPath></defs>" ++
        resolveFrag reg.backgroundSvg (mergeConfig config).background ++
        "<g clip-path=\"url(#avatarClip)\">" ++
        resolveFrag reg.tshirtSvg (mergeConfig config).tshirt ++
        resolveFrag reg.skinSvg (mergeConfig config).skin ++
        resolveFrag reg.hairSvg (mergeConfig config).hair ++
        resolveFrag reg.expressionSvg (mergeConfig config).expression ++
        "</g></svg>", ?_⟩,
    ⟨"<svg width=\"" ++ toString size ++ "\" height=\"" ++ toString size ++
        "\" viewBox=\"0 0 474 474\" fill=\"none\" xmlns=\"http://www.w3.org/2000/svg\"><defs>",
      "</defs>" ++
        resolveFrag reg.backgroundSvg (mergeConfig config).background ++
        "<g clip-path=\"url(#avatarClip)\">" ++
        resolveFrag reg.tshirtSvg (mergeConfig config).tshirt ++
        resolveFrag reg.skinSvg (mergeConfig config).skin ++
        resolveFrag reg.hairSvg (mergeConfig config).hair ++
        resolveFrag reg.expressionSvg (mergeConfig config).expression ++
        "</g></svg>", ?_⟩⟩ <;>
    apply String.ext <;>
    simp only [generateSvg, String.data_append,
      (rfl : ("<svg width=\"" : String).data = "<svg ".data ++ "width=\"".data),
      (rfl : ("\" height=\"" : String).data = "\"".data ++ " height=\"".data),
      (rfl : ("\" height=\"" : String).data = "\" ".data ++ "height=\"".data),
      (rfl : ("\" viewBox=\"0 0 474 474\" fill=\"none\" xmlns=\"http://www.w3.org/2000/svg\">" : String).data
        = "\" ".data ++ "viewBox=\"0 0 474 474\"".data
          ++ " fill=\"none\" xmlns=\"http://www.w3.org/2000/svg\">".data),
      (rfl : ("<defs><clipPath id=\"avatarClip\"><circle cx=\"237\" cy=\"237\" r=\"237\"/></clipPath></defs>" : String).data
        = "<defs>".data
          ++ "<clipPath id=\"avatarClip\"><circle cx=\"237\" cy=\"237\" r=\"237\"/></clipPath>".data
          ++ "</defs>".data),
      List.append_assoc, List.cons_append, List.nil_append]

/-! ### Claim C5 — merging a partial configuration over the defaults -/

/-- C5: merging a partial configuration over the default configuration is
total, and is shallow last-write-wins per key: a key supplied in the partial
keeps its partial value, an absent key takes the default value. -/
theorem mergeConfig_last_write_wins (p : PartialAvatarConfig) :
    ((∀ v, p.background = some v → (mergeConfig p).background = v) ∧
      (p.background = none → (mergeConfig p).background = defaultConfig.background)) ∧
    ((∀ v, p.skin = some v → (mergeConfig p).skin = v) ∧
      (p.skin = none → (mergeConfig p).skin = defaultConfig.skin)) ∧
    ((∀ v, p.tshirt = some v → (mergeConfig p).tshirt = v) ∧
      (p.tshirt = none → (mergeConfig p).tshirt = defaultConfig.tshirt)) ∧
    ((∀ v, p.expression = some v → (mergeConfig p).expression = v) ∧
      (p.expression = none → (mergeConfig p).expression = defaultConfig.expression)) ∧
    ((∀ v, p.hair = some v → (mergeConfig p).hair = v) ∧
      (p.hair = none → (mergeConfig p).hair = defaultConfig.hair)) :=
  ⟨⟨fun v hv => by simp [mergeConfig, hv], fun hv => by simp [mergeConfig, hv]⟩,
   ⟨fun v hv => by simp [mergeConfig, hv], fun hv => by simp [mergeConfig, hv]⟩,
   ⟨fun v hv => by simp [mergeConfig, hv], fun hv => by simp [mergeConfig, hv]⟩,
   ⟨fun v hv => by simp [mergeConfig, hv], fun hv => by simp [mergeConfig, hv]⟩,
   ⟨fun v hv => by simp [mergeConfig, hv], fun hv => by simp [mergeConfig, hv]⟩⟩

/-- Witness for C5: a partial configuration supplying only `background`
keeps that value and takes the default for an absent key. -/
theorem mergeConfig_last_write_wins_witness :
    ({ background := some "mintGreen" } : PartialAvatarConfig).background = some "mintGreen" ∧
    ({ background := some "mintGreen" } : PartialAvatarConfig).skin = none ∧
    (mergeConfig { background := some "mintGreen" }).background = "mintGreen" ∧
    (mergeConfig { background := some "mintGreen" }).skin = defaultConfig.skin :=
  ⟨rfl, rfl,
    (mergeConfig_last_write_wins _).1.1 _ rfl,
    (mergeConfig_last_write_wins _).2.1.2 rfl⟩

/-! ### Claim C6 — uniform environment guard of the browser-only exports -/

/-- C6: when no interactive-display surface exists (`window` undefined),
each of `generatePngBase64`, `downloadSvg` and `downloadPng` fails with its
stable, checkable message, by the same capability check performed before any
other work, and performs no side effect at all (empty effect list: no
transient resource is allocated or leaked). -/
theorem export_browser_guard (env : BrowserEnv) (reg : FragmentRegistry)
    (config : PartialAvatarConfig) (size : Nat) (filename : String)
    (h : env.windowDefined = false) :
    generatePngBase64 env reg config size =
      (Except.error "generatePngBase64 is only available in browser environment", []) ∧
    downloadSvg env reg config filename =
      (Except.error "downloadSvg is only available in browser environment", []) ∧
    downloadPng env reg config size filename =
      (Except.error "downloadPng is only available in browser environment", []) := by
  refine ⟨?_, ?_, ?_⟩ <;> simp [generatePngBase64, downloadSvg, downloadPng, h]

/-- Witness for C6: the concrete no-window environment rejects all three
operations with their messages and performs no side effect. -/
theorem export_browser_guard_witness :
    noWindowEnv.windowDefined = false ∧
    (generatePngBase64 noWindowEnv emptyRegistry {} 474 =
      (Except.error "generatePngBase64 is only available in browser environment", []) ∧
     downloadSvg noWindowEnv emptyRegistry {} "avatar.svg" =
      (Except.error "downloadSvg is only available in browser environment", []) ∧
     downloadPng noWindowEnv emptyRegistry {} 474 "avatar.png" =
      (Except.error "downloadPng is only available in browser environment", [])) :=
  ⟨rfl, export_browser_guard noWindowEnv emptyRegistry {} 474 "avatar.svg" rfl |>.1,
    export_browser_guard noWindowEnv emptyRegistry {} 474 "avatar.svg" rfl |>.2.1,
    export_browser_guard noWindowEnv emptyRegistry {} 474 "avatar.png" rfl |>.2.2⟩

/-! ### Claim C7 — release of the object URL in `downloadSvg`

The claim states that `URL.revokeObjectURL` runs on every exit path of
`downloadSvg`, even when an actuation step (append, click, remove) throws.
The source is straight-line code with no `try`/`finally`: a throwing
actuation step propagates out of the function before the revoke line runs,
so the allocated object URL is then never released. The claim holds only on
the paths on which the actuation steps complete without throwing. -/

/-- Counterexample to C7 as stated: in a browser environment in which
`a.click()` throws, `downloadSvg` allocates the object URL but never
revokes it. -/
theorem downloadSvg_release_counterexample :
    DomEffect.createObjectURL ∈ (downloadSvg clickThrowsEnv emptyRegistry {} "avatar.svg").2 ∧
    DomEffect.revokeObjectURL ∉ (downloadSvg clickThrowsEnv emptyRegistry {} "avatar.svg").2 := by
  decide

/-- C7 (amended): whenever `window` is defined and none of the actuation
steps throws, `downloadSvg` succeeds, allocates the object URL, and releases
it (the revoke is its final side effect); on the non-browser path nothing is
allocated, so there is nothing to release. -/
theorem downloadSvg_release_on_success (env : BrowserEnv) (reg : FragmentRegistry)
    (config : PartialAvatarConfig) (filename : String)
    (hw : env.windowDefined = true) (ha : env.appendChildThrows = false)
    (hc : env.clickThrows = false) (hr : env.removeChildThrows = false) :
    (downloadSvg env reg config filename).1 = Except.ok () ∧
    DomEffect.createObjectURL ∈ (downloadSvg env reg config filename).2 ∧
    (downloadSvg env reg config filename).2.getLast? = some DomEffect.revokeObjectURL := by
  refine ⟨?_, ?_, ?_⟩ <;> simp [downloadSvg, hw, ha, hc, hr]

/-- Witness for the amended C7: the healthy browser environment allocates
and then releases the object URL. -/
theorem downloadSvg_release_on_success_witness :
    (okBrowserEnv.windowDefined = true ∧ okBrowserEnv.appendChildThrows = false ∧
     okBrowserEnv.clickThrows = false ∧ okBrowserEnv.removeChildThrows = false) ∧
    ((downloadSvg okBrowserEnv emptyRegistry {} "avatar.svg").1 = Except.ok () ∧
     DomEffect.createObjectURL ∈ (downloadSvg okBrowserEnv emptyRegistry {} "avatar.svg").2 ∧
     (downloadSvg okBrowserEnv emptyRegistry {} "avatar.svg").2.getLast? =
       some DomEffect.revokeObjectURL) :=
  ⟨⟨rfl, rfl, rfl, rfl⟩,
    downloadSvg_release_on_success okBrowserEnv emptyRegistry {} "avatar.svg" rfl rfl rfl rfl⟩

/-! ### Claim C8 — `updateConfig` replaces one attribute and notifies once -/

/-- C8: for every current SelectionState and every attribute kind and value,
`updateConfig` produces a configuration in which that one attribute equals
the given value while the other four are unchanged, and invokes the change
callback exactly once with the full resulting configuration; without a
registered callback it performs no notification and raises no error. -/
theorem updateConfig_single_attribute (c : AvatarConfig) (v : String) :
    ((updateConfig true c (AttrUpdate.background v)).1.background = v ∧
      (updateConfig true c (AttrUpdate.background v)).1.skin = c.skin ∧
      (updateConfig true c (AttrUpdate.background v)).1.tshirt = c.tshirt ∧
      (updateConfig true c (AttrUpdate.background v)).1.expression = c.expression ∧
      (updateConfig true c (AttrUpdate.background v)).1.hair = c.hair) ∧
    ((updateConfig true c (AttrUpdate.skin v)).1.skin = v ∧
      (updateConfig true c (AttrUpdate.skin v)).1.background = c.background ∧
      (updateConfig true c (AttrUpdate.skin v)).1.tshirt = c.tshirt ∧
      (updateConfig true c (AttrUpdate.skin v)).1.expression = c.expression ∧
      (updateConfig true c (AttrUpdate.skin v)).1.hair = c.hair) ∧
    ((updateConfig true c (AttrUpdate.tshirt v)).1.tshirt = v ∧
      (updateConfig true c (AttrUpdate.tshirt v)).1.background = c.background ∧
      (updateConfig true c (AttrUpdate.tshirt v)).1.skin = c.skin ∧
      (updateConfig true c (AttrUpdate.tshirt v)).1.expression = c.expression ∧
      (updateConfig true c (AttrUpdate.tshirt v)).1.hair = c.hair) ∧
    ((updateConfig true c (AttrUpdate.expression v)).1.expression = v ∧
      (updateConfig true c (AttrUpdate.expression v)).1.background = c.background ∧
      (updateConfig true c (AttrUpdate.expression v)).1.skin = c.skin ∧
      (updateConfig true c (AttrUpdate.expression v)).1.tshirt = c.tshirt ∧
      (updateConfig true c (AttrUpdate.expression v)).1.hair = c.hair) ∧
    ((updateConfig true c (AttrUpdate.hair v)).1.hair = v ∧
      (updateConfig true c (AttrUpdate.hair v)).1.background = c.background ∧
      (updateConfig true c (AttrUpdate.hair v)).1.skin = c.skin ∧
      (updateConfig true c (AttrUpdate.hair v)).1.tshirt = c.tshirt ∧
      (updateConfig true c (AttrUpdate.hair v)).1.expression = c.expression) ∧
    (∀ u : AttrUpdate, (updateConfig true c u).2 = [(updateConfig true c u).1]) ∧
    (∀ u : AttrUpdate, (updateConfig false c u).2 = []) := by
  refine ⟨⟨rfl, rfl, rfl, rfl, rfl⟩, ⟨rfl, rfl, rfl, rfl, rfl⟩, ⟨rfl, rfl, rfl, rfl, rfl⟩,
    ⟨rfl, rfl, rfl, rfl, rfl⟩, ⟨rfl, rfl, rfl, rfl, rfl⟩, fun u => rfl, fun u => rfl⟩

/-! ### Claim C9 — uniform independent draws in `generateRandomConfig` -/

theorem randomItem_eq_getElem (arr : List String) (hne : arr ≠ []) (r : ℚ)
    (h0 : 0 ≤ r) (h1 : r < 1) :
    ∃ i : Nat, ∃ hi : i < arr.length, (⌊r * arr.length⌋).toNat = i ∧
      randomItem arr r = some (arr.get ⟨i, hi⟩) := by
  have hn : 0 < arr.length := List.length_pos.mpr hne
  have hq : (0 : ℚ) < arr.length := by exact_mod_cast hn
  have hfl : 0 ≤ ⌊r * arr.length⌋ := Int.floor_nonneg.mpr (mul_nonneg h0 (by positivity))
  have hlt : ⌊r * arr.length⌋ < arr.length := by
    rw [Int.floor_lt]
    push_cast
    nlinarith
  refine ⟨(⌊r * arr.length⌋).toNat, by omega, rfl, ?_⟩
  show arr[(⌊r * arr.length⌋).toNat]? = _
  rw [List.getElem?_eq_getElem (by omega)]
  rfl

theorem randomItem_uniform (arr : List String) (hnd : arr.Nodup) (hne : arr ≠ [])
    (r : ℚ) (h0 : 0 ≤ r) (h1 : r < 1) (k : Nat) :
    (randomItem arr r = arr[k]?) ↔
      ((k : ℚ) / arr.length ≤ r ∧ r < ((k : ℚ) + 1) / arr.length) := by
  obtain ⟨i, hi, hidx, hri⟩ := randomItem_eq_getElem arr hne r h0 h1
  have hn : 0 < arr.length := List.length_pos.mpr hne
  have hq : (0 : ℚ) < arr.length := by exact_mod_cast hn
  have hfl : 0 ≤ ⌊r * arr.length⌋ := Int.floor_nonneg.mpr (mul_nonneg h0 (by positivity))
  by_cases hk : k < arr.length
  · rw [hri, List.getElem?_eq_getElem hk, Option.some_inj]
    have hget : arr.get ⟨i, hi⟩ = arr[i] := rfl
    rw [hget, hnd.getElem_inj_iff]
    have hiff : i = k ↔ ⌊r * arr.length⌋ = (k : Int) := by omega
    rw [hiff, Int.floor_eq_iff]
    push_cast
    rw [div_le_iff₀ hq, lt_div_iff₀ hq]
  · have hnone : arr[k]? = none := List.getElem?_eq_none (by omega)
    rw [hri, hnone]
    constructor
    · intro hcontr
      cases hcontr
    · rintro ⟨hge, _⟩
      exfalso
      have hk' : (arr.length : ℚ) ≤ (k : ℚ) := by exact_mod_cast (by omega : arr.length ≤ k)
      have : (1 : ℚ) ≤ (k : ℚ) / arr.length := by
        rw [le_div_iff₀ hq]
        nlinarith
      nlinarith

/-- C9: with each of the five draws `rᵢ` modelling an independent
`Math.random()` result in `[0, 1)`, `generateRandomConfig` always produces a
configuration whose every attribute is drawn from its own kind's full legal
list (draw `i` determines attribute `i` alone); each draw is uniform: an
element of a list of length `n` is produced exactly when the draw falls in
its half-open interval of length `1/n`, and every element is reachable by
some draw; and `handleRandom` replaces the SelectionState wholesale with the
drawn configuration, emitting the change notification exactly once (and not
at all when no callback is registered). -/
theorem generateRandomConfig_uniform (r₁ r₂ r₃ r₄ r₅ : ℚ)
    (h : (0 ≤ r₁ ∧ r₁ < 1) ∧ (0 ≤ r₂ ∧ r₂ < 1) ∧ (0 ≤ r₃ ∧ r₃ < 1) ∧
      (0 ≤ r₄ ∧ r₄ < 1) ∧ (0 ≤ r₅ ∧ r₅ < 1)) :
    (∃ cfg : AvatarConfig,
      generateRandomConfig r₁ r₂ r₃ r₄ r₅ = some cfg ∧
      randomItem BACKGROUNDS r₁ = some cfg.background ∧
      randomItem SKINS r₂ = some cfg.skin ∧
      randomItem TSHIRTS r₃ = some cfg.tshirt ∧
      randomItem EXPRESSIONS r₄ = some cfg.expression ∧
      randomItem HAIRS r₅ = some cfg.hair ∧
      cfg.background ∈ BACKGROUNDS ∧ cfg.skin ∈ SKINS ∧ cfg.tshirt ∈ TSHIRTS ∧
      cfg.expression ∈ EXPRESSIONS ∧ cfg.hair ∈ HAIRS ∧
      handleRandom true r₁ r₂ r₃ r₄ r₅ = some (cfg, [cfg]) ∧
      handleRandom false r₁ r₂ r₃ r₄ r₅ = some (cfg, [])) ∧
    (∀ k : Nat, randomItem BACKGROUNDS r₁ = BACKGROUNDS[k]? ↔
      ((k : ℚ) / 8 ≤ r₁ ∧ r₁ < ((k : ℚ) + 1) / 8)) ∧
    (∀ k : Nat, randomItem SKINS r₂ = SKINS[k]? ↔
      ((k : ℚ) / 5 ≤ r₂ ∧ r₂ < ((k : ℚ) + 1) / 5)) ∧
    (∀ k : Nat, randomItem TSHIRTS r₃ = TSHIRTS[k]? ↔
      ((k : ℚ) / 9 ≤ r₃ ∧ r₃ < ((k : ℚ) + 1) / 9)) ∧
    (∀ k : Nat, randomItem EXPRESSIONS r₄ = EXPRESSIONS[k]? ↔
      ((k : ℚ) / 14 ≤ r₄ ∧ r₄ < ((k : ℚ) + 1) / 14)) ∧
    (∀ k : Nat, randomItem HAIRS r₅ = HAIRS[k]? ↔
      ((k : ℚ) / 27 ≤ r₅ ∧ r₅ < ((k : ℚ) + 1) / 27)) ∧
    (∀ arr ∈ [BACKGROUNDS, SKINS, TSHIRTS, EXPRESSIONS, HAIRS],
      ∀ k, k < arr.length → ∃ r : ℚ, 0 ≤ r ∧ r < 1 ∧ randomItem arr r = arr[k]?) := by
  obtain ⟨⟨h01, h11⟩, ⟨h02, h12⟩, ⟨h03, h13⟩, ⟨h04, h14⟩, ⟨h05, h15⟩⟩ := h
  obtain ⟨i1, hi1, _, e1⟩ := randomItem_eq_getElem BACKGROUNDS (by decide) r₁ h01 h11
  obtain ⟨i2, hi2, _, e2⟩ := randomItem_eq_getElem SKINS (by decide) r₂ h02 h12
  obtain ⟨i3, hi3, _, e3⟩ := randomItem_eq_getElem TSHIRTS (by decide) r₃ h03 h13
  obtain ⟨i4, hi4, _, e4⟩ := randomItem_eq_getElem EXPRESSIONS (by decide) r₄ h04 h14
  obtain ⟨i5, hi5, _, e5⟩ := randomItem_eq_getElem HAIRS (by decide) r₅ h05 h15
  refine ⟨⟨AvatarConfig.mk (BACKGROUNDS.get ⟨i1, hi1⟩) (SKINS.get ⟨i2, hi2⟩)
      (TSHIRTS.get ⟨i3, hi3⟩) (EXPRESSIONS.get ⟨i4, hi4⟩)
      (HAIRS.get ⟨i5, hi5⟩), ?_, e1, e2, e3, e4, e5,
      List.get_mem _ _ _, List.get_mem _ _ _, List.get_mem _ _ _, List.get_mem _ _ _,
      List.get_mem _ _ _, ?_, ?_⟩, ?_, ?_, ?_, ?_, ?_, ?_⟩
  · simp [generateRandomConfig, e1, e2, e3, e4, e5]
  · simp [handleRandom, generateRandomConfig, e1, e2, e3, e4, e5]
  · simp [handleRandom, generateRandomConfig, e1, e2, e3, e4, e5]
  · intro k
    rw [randomItem_uniform BACKGROUNDS (by decide) (by decide) r₁ h01 h11 k]
    norm_num [BACKGROUNDS]
  · intro k
    rw [randomItem_uniform SKINS (by decide) (by decide) r₂ h02 h12 k]
    norm_num [SKINS]
  · intro k
    rw [randomItem_uniform TSHIRTS (by decide) (by decide) r₃ h03 h13 k]
    norm_num [TSHIRTS]
  · intro k
    rw [randomItem_uniform EXPRESSIONS (by decide) (by decide) r₄ h04 h14 k]
    norm_num [EXPRESSIONS]
  · intro k
    rw [randomItem_uniform HAIRS (by decide) (by decide) r₅ h05 h15 k]
    norm_num [HAIRS]
  · intro arr harr k hk
    have hnd : arr.Nodup := by
      simp only [List.mem_cons, List.mem_singleton, List.not_mem_nil, or_false] at harr
      rcases harr with rfl | rfl | rfl | rfl | rfl <;> decide
    have hne : arr ≠ [] := by
      intro hcontr
      rw [hcontr] at hk
      simp at hk
    have hq : (0 : ℚ) < arr.length := by
      have := List.length_pos.mpr hne
      exact_mod_cast this
    have hkq : (k : ℚ) < arr.length := by exact_mod_cast hk
    refine ⟨(k : ℚ) / arr.length, by positivity, ?_, ?_⟩
    · rw [div_lt_one hq]
      exact hkq
    · rw [randomItem_uniform arr hnd hne _ (by positivity) (by rw [div_lt_one hq]; exact hkq) k]
      constructor
      · exact le_refl _
      · rw [div_lt_div_iff_of_pos_right hq]
        linarith


/-- Witness for C9: the theorem instantiated at the concrete draws
`rᵢ = 1/2`. -/
theorem generateRandomConfig_uniform_witness :
    (((0 : ℚ) ≤ 1/2 ∧ (1/2 : ℚ) < 1) ∧ ((0 : ℚ) ≤ 1/2 ∧ (1/2 : ℚ) < 1) ∧
      ((0 : ℚ) ≤ 1/2 ∧ (1/2 : ℚ) < 1) ∧ ((0 : ℚ) ≤ 1/2 ∧ (1/2 : ℚ) < 1) ∧
      ((0 : ℚ) ≤ 1/2 ∧ (1/2 : ℚ) < 1)) ∧
    (
    (∃ cfg : AvatarConfig,
      generateRandomConfig (1/2 : ℚ) (1/2 : ℚ) (1/2 : ℚ) (1/2 : ℚ) (1/2 : ℚ) = some cfg ∧
      randomItem BACKGROUNDS (1/2 : ℚ) = some cfg.background ∧
      randomItem SKINS (1/2 : ℚ) = some cfg.skin ∧
      randomItem TSHIRTS (1/2 : ℚ) = some cfg.tshirt ∧
      randomItem EXPRESSIONS (1/2 : ℚ) = some cfg.expression ∧
      randomItem HAIRS (1/2 : ℚ) = some cfg.hair ∧
      cfg.background ∈ BACKGROUNDS ∧ cfg.skin ∈ SKINS ∧ cfg.tshirt ∈ TSHIRTS ∧
      cfg.expression ∈ EXPRESSIONS ∧ cfg.hair ∈ HAIRS ∧
      handleRandom true (1/2 : ℚ) (1/2 : ℚ) (1/2 : ℚ) (1/2 : ℚ) (1/2 : ℚ) = some (cfg, [cfg]) ∧
      handleRandom false (1/2 : ℚ) (1/2 : ℚ) (1/2 : ℚ) (1/2 : ℚ) (1/2 : ℚ) = some (cfg, [])) ∧
    (∀ k : Nat, randomItem BACKGROUNDS (1/2 : ℚ) = BACKGROUNDS[k]? ↔
      ((k : ℚ) / 8 ≤ (1/2 : ℚ) ∧ (1/2 : ℚ) < ((k : ℚ) + 1) / 8)) ∧
    (∀ k : Nat, randomItem SKINS (1/2 : ℚ) = SKINS[k]? ↔
      ((k : ℚ) / 5 ≤ (1/2 : ℚ) ∧ (1/2 : ℚ) < ((k : ℚ) + 1) / 5)) ∧
    (∀ k : Nat, randomItem TSHIRTS (1/2 : ℚ) = TSHIRTS[k]? ↔
      ((k : ℚ) / 9 ≤ (1/2 : ℚ) ∧ (1/2 : ℚ) < ((k : ℚ) + 1) / 9)) ∧
    (∀ k : Nat, randomItem EXPRESSIONS (1/2 : ℚ) = EXPRESSIONS[k]? ↔
      ((k : ℚ) / 14 ≤ (1/2 : ℚ) ∧ (1/2 : ℚ) < ((k : ℚ) + 1) / 14)) ∧
    (∀ k : Nat, randomItem HAIRS (1/2 : ℚ) = HAIRS[k]? ↔
      ((k : ℚ) / 27 ≤ (1/2 : ℚ) ∧ (1/2 : ℚ) < ((k : ℚ) + 1) / 27)) ∧
    (∀ arr ∈ [BACKGROUNDS, SKINS, TSHIRTS, EXPRESSIONS, HAIRS],
      ∀ k, k < arr.length → ∃ r : ℚ, 0 ≤ r ∧ r < 1 ∧ randomItem arr r = arr[k]?)
    ) :=
  ⟨by norm_num,
    generateRandomConfig_uniform (1/2) (1/2) (1/2) (1/2) (1/2) (by norm_num)⟩

/-! ### Claim C10 — external value going absent does not reset the picker -/

/-- C10: the external-to-internal sync overwrites the internal
SelectionState only when an external configuration is actually supplied;
when the external value transitions from a configuration `a` to absent, the
internal state retains `a` (it is not reset to the default configuration). -/
theorem syncSelectionState_retains_internal (a init : AvatarConfig) :
    syncSelectionState none (syncSelectionState (some a) init) = a ∧
    (∀ internal : AvatarConfig, syncSelectionState none internal = internal) ∧
    (∀ b internal : AvatarConfig, syncSelectionState (some b) internal = b) :=
  ⟨rfl, fun _ => rfl, fun _ _ => rfl⟩

end PineconeAvatars
